import Mathlib

/-!
# Verification of the panel-state reconciliation engine

Shallow embedding of `backend/services/proevent_service.py`
(repository `amazon_rough`) and proofs of the spec's testable properties.

The Python code is stateful and talks to three collaborators:
`proserver_service` (the live system gateway), `cache_service`
(the key/value cache) and `sqlite_config` (the persistent store).
We embed each operation as a pure function from an explicit
environment — the values the collaborators would return — to the
pair of the resulting store state and the trace of externally
visible calls (bulk device writes, live reads, alerts).
-/

namespace Proevent

/-- A device record as returned by
`proserver_service.get_proevents_for_building_from_db`:
`{"id": ..., "state": ...}`. -/
structure Device where
  id : Nat
  state : Nat
deriving DecidableEq, Repr

/-- One row of the map returned by `sqlite_config.get_ignored_proevents()`:
the key `pid` plus the fields the reconciliation logic reads
(`building_frk`, `ignore_on_disarm`). -/
structure IgnoreEntry where
  pid : Nat
  building_frk : Nat
  ignore_on_disarm : Bool
deriving DecidableEq, Repr

/-- A target entry `{"id": ..., "state": ...}` passed to
`proserver_service.set_proevent_reactive_state_bulk`.
State 0 is Reactive, state 1 is NonReactive. -/
structure Target where
  id : Nat
  state : Nat
deriving DecidableEq, Repr

/-- The persisted `panel_state_cache`: building id to last observed arm
flag, `none` for a building never observed.  The Python dict is keyed by
`str(building_id)` and every access goes through `str(building_id)`;
since that conversion is injective we key by the id itself. -/
abbrev Cache := Nat → Option Bool

/-- Models `new_cached_states[str(building_id)] = is_armed`. -/
def cacheSet (c : Cache) (b : Nat) (v : Bool) : Cache :=
  fun x => if x = b then some v else c x

/-- The set comprehension over `sqlite_config.get_ignored_proevents()`:
`{pid for pid, data in ignored_map.items()
  if data.get("building_frk") == building_id and data.get("ignore_on_disarm")}`.
We keep the entries in list order (the dict's keys are unique). -/
def ignoredIds (m : List IgnoreEntry) (b : Nat) : List Nat :=
  (m.filter (fun e => e.building_frk = b ∧ e.ignore_on_disarm)).map
    (fun e => e.pid)

/-- The collaborator values one `manage_proevents_on_panel_state_change`
tick observes: the live read, the cached map, the per-building device
list, the ignore map, and the success flag the bulk write would return
for a given payload. -/
structure Env where
  liveStates : List (Nat × Bool)
  cache : Cache
  proevents : Nat → List Device
  ignoredMap : List IgnoreEntry
  bulkSuccess : List Target → Bool

/-- The loop body of the second (active) definition of
`manage_proevents_on_panel_state_change`, lines 140-196: given the
accumulated `new_cached_states` and one `(building_id, is_armed)` pair
of the live read, return the updated `new_cached_states` together with
the bulk writes issued, each tagged with the building the loop iteration
was processing.  `prev_state` is read from the original cached map
(`env.cache`), exactly as the source reads `cached_states`, not
`new_cached_states`. -/
def processBuilding (env : Env) (nc : Cache) (b : Nat) (a : Bool) :
    Cache × List (Nat × List Target) :=
  match env.cache b with
  | none => (cacheSet nc b a, [])
  | some prev =>
    if prev = a then (nc, [])
    else if env.proevents b = [] then (cacheSet nc b a, [])
    else
      let ignored := ignoredIds env.ignoredMap b
      if a then
        if ignored = [] then (cacheSet nc b a, [])
        else
          let ts := ignored.map (fun pid => (⟨pid, 0⟩ : Target))
          let _success := env.bulkSuccess ts
          (cacheSet nc b a, [(b, ts)])
      else
        if ignored = [] then (cacheSet nc b a, [])
        else
          let ts := ignored.map (fun pid => (⟨pid, 1⟩ : Target))
          let _success := env.bulkSuccess ts
          (cacheSet nc b a, [(b, ts)])

/-- The second (active, shadowing) definition of
`manage_proevents_on_panel_state_change` (lines 127-202): iterate the
loop body over the live read starting from a copy of the cached map,
then persist the final map once with `set_cache_value`.  Returns the
persisted cache and the trace of bulk writes. -/
def manage_proevents_on_panel_state_change (env : Env) :
    Cache × List (Nat × List Target) :=
  env.liveStates.foldl
    (fun acc p =>
      let r := processBuilding env acc.1 p.1 p.2
      (r.1, acc.2 ++ r.2))
    (env.cache, [])

/-- The loop body of the first, shadowed definition of
`manage_proevents_on_panel_state_change` (lines 72-120).  Translated
independently from those lines; it differs from the active definition
only in logging. -/
def processBuildingV1 (env : Env) (nc : Cache) (b : Nat) (a : Bool) :
    Cache × List (Nat × List Target) :=
  match env.cache b with
  | none => (cacheSet nc b a, [])
  | some prev =>
    if prev = a then (nc, [])
    else if env.proevents b = [] then (cacheSet nc b a, [])
    else
      let ignored := ignoredIds env.ignoredMap b
      if a then
        if ignored = [] then (cacheSet nc b a, [])
        else
          let ts := ignored.map (fun pid => (⟨pid, 0⟩ : Target))
          let _success := env.bulkSuccess ts
          (cacheSet nc b a, [(b, ts)])
      else
        if ignored = [] then (cacheSet nc b a, [])
        else
          let ts := ignored.map (fun pid => (⟨pid, 1⟩ : Target))
          let _success := env.bulkSuccess ts
          (cacheSet nc b a, [(b, ts)])

/-- The first, shadowed definition of
`manage_proevents_on_panel_state_change` (lines 63-125). -/
def manageProeventsV1 (env : Env) : Cache × List (Nat × List Target) :=
  env.liveStates.foldl
    (fun acc p =>
      let r := processBuildingV1 env acc.1 p.1 p.2
      (r.1, acc.2 ++ r.2))
    (env.cache, [])

/-- The bulk writes one tick issues while processing building `b`
(the trace entries tagged with `b`), untagged. -/
def writesFor (env : Env) (b : Nat) : List (List Target) :=
  ((manage_proevents_on_panel_state_change env).2.filter
    (fun w => w.1 = b)).map (fun w => w.2)

/-- The row returned by `sqlite_config.get_building_time(building_id)`,
with the one field the service reads. -/
structure Schedule where
  start_time : Option String
deriving DecidableEq, Repr

/-- Per-building snapshot store (`sqlite_config.get_snapshot` /
`save_snapshot` / `clear_snapshot`): `none` means no snapshot exists. -/
abbrev SnapStore := Nat → Option (List Target)

/-- Models `sqlite_config.save_snapshot(building_id, snapshot_data)`. -/
def snapSave (s : SnapStore) (b : Nat) (v : List Target) : SnapStore :=
  fun x => if x = b then some v else s x

/-- Models `sqlite_config.clear_snapshot(building_id)`. -/
def snapClear (s : SnapStore) (b : Nat) : SnapStore :=
  fun x => if x = b then none else s x

/-- The collaborator values the snapshot path observes. -/
structure SnapEnv where
  schedule : Nat → Option Schedule
  proevents : Nat → List Device
  ignoredMap : List IgnoreEntry
  bulkSuccess : List Target → Bool

/-- Embedding of `take_snapshot_and_apply_schedule(building_id)` (lines 342-380):
read every device of the building from the live system; if none, return
without saving; otherwise persist the captured `(id, state)` pairs as
the snapshot, compute targets from the ignore set (ignored devices to
NonReactive 1, all others to Reactive 0) and bulk-write them.  Returns
the snapshot store, the list of live reads performed (building ids
passed to `get_proevents_for_building_from_db`) and the bulk writes
issued. -/
def take_snapshot_and_apply_schedule (env : SnapEnv) (snaps : SnapStore)
    (b : Nat) : SnapStore × List Nat × List (List Target) :=
  let devs := env.proevents b
  if devs = [] then (snaps, [b], [])
  else
    let snapshot_data := devs.map (fun d => (⟨d.id, d.state⟩ : Target))
    let snaps1 := snapSave snaps b snapshot_data
    let ignored := ignoredIds env.ignoredMap b
    let target_states := snapshot_data.map (fun dev =>
      if dev.id ∈ ignored then (⟨dev.id, 1⟩ : Target)
      else (⟨dev.id, 0⟩ : Target))
    let _success := env.bulkSuccess target_states
    (snaps1, [b], [target_states])

/-- Embedding of `_evaluate_building_state(building_id)` (lines 321-339): no-op when
the building has no schedule row; no-op when a snapshot already exists;
otherwise take the snapshot and apply the schedule. -/
def evaluate_building_state (env : SnapEnv) (snaps : SnapStore)
    (b : Nat) : SnapStore × List Nat × List (List Target) :=
  match env.schedule b with
  | none => (snaps, [], [])
  | some _ =>
    match snaps b with
    | some _ => (snaps, [], [])
    | none => take_snapshot_and_apply_schedule env snaps b

/-- Embedding of `revert_snapshot(building_id, snapshot_data)` (lines 382-393):
bulk-write exactly the captured pairs, then clear the building's
snapshot.  Returns the snapshot store and the bulk writes issued; the
function reads no live state and no ignore list. -/
def revert_snapshot (snaps : SnapStore) (b : Nat)
    (snapshot_data : List Target) : SnapStore × List (List Target) :=
  (snapClear snaps b, [snapshot_data])

/-- Python truthiness of the value `cache_service.get_cache_value('panel_armed')`
returns: absent (`None`) is falsy. -/
def truthy : Option Bool → Bool
  | none => false
  | some v => v

/-- Embedding of `reevaluate_building_state(building_id)` (lines 236-250): when the
global `panel_armed` cache value is truthy, log and return — no live
read, no write; otherwise delegate to `_evaluate_building_state`. -/
def reevaluate_building_state (env : SnapEnv) (panel_armed : Option Bool)
    (snaps : SnapStore) (b : Nat) :
    SnapStore × List Nat × List (List Target) :=
  if truthy panel_armed then (snaps, [], [])
  else evaluate_building_state env snaps b

/-- The collaborator values `check_and_manage_scheduled_states`
observes: the formatted current time (`"%H:%M"`), the live arm states
and the schedule rows. -/
structure AlertEnv where
  currentTime : String
  liveStates : List (Nat × Bool)
  schedule : Nat → Option Schedule

/-- The expression `(schedule.get("start_time") or "20:00")[:5]`: the `or` takes the
default when the field is `None` or the empty string (both falsy). -/
def startTimeOf (sch : Schedule) : String :=
  (match sch.start_time with
   | none => "20:00"
   | some t => if t = "" then "20:00" else t).take 5

/-- The loop body of `check_and_manage_scheduled_states` for one
`(building_id, is_armed)` pair: the disarmed-alert building ids it
sends (`send_disarmed_axe_message`). -/
def checkBuilding (env : AlertEnv) (b : Nat) (a : Bool) : List Nat :=
  match env.schedule b with
  | none => []
  | some sch =>
    let start_time := startTimeOf sch
    if env.currentTime ≠ start_time then []
    else if a then []
    else [b]

/-- Embedding of `check_and_manage_scheduled_states()` (lines 205-233): for each
building of the live read, compare the current time with the configured
start time and alert when disarmed at the exact match.  Returns the
trace of alerts sent. -/
def check_and_manage_scheduled_states (env : AlertEnv) : List Nat :=
  env.liveStates.foldl (fun alerts p => alerts ++ checkBuilding env p.1 p.2) []

/-- Collaborators of the tick as fallible calls: each external call
either returns a value or raises.  `get_ignored_proevents` takes no
argument in the source, so its outcome is a single `Except` value. -/
structure EnvE where
  liveStatesE : Except Unit (List (Nat × Bool))
  proeventsE : Nat → Except Unit (List Device)
  ignoredMapE : Except Unit (List IgnoreEntry)
  bulkE : List Target → Except Unit Bool

/-- The body of the `try` block of
`manage_proevents_on_panel_state_change` with fallible collaborators:
the live read, then the loop, each iteration reading `prev_state` from
the initially read cache `store0`.  An exception anywhere aborts the
whole computation before the single trailing `set_cache_value`. -/
def runTickE (env : EnvE) (store0 : Cache) :
    Except Unit (Cache × List (Nat × List Target)) := do
  let live ← env.liveStatesE
  live.foldlM
    (fun (acc : Cache × List (Nat × List Target)) p => do
      match store0 p.1 with
      | none => pure (cacheSet acc.1 p.1 p.2, acc.2)
      | some prev =>
        if prev = p.2 then pure acc
        else do
          let devs ← env.proeventsE p.1
          if devs = [] then pure (cacheSet acc.1 p.1 p.2, acc.2)
          else do
            let im ← env.ignoredMapE
            let ignored := ignoredIds im p.1
            if p.2 then
              if ignored = [] then pure (cacheSet acc.1 p.1 p.2, acc.2)
              else do
                let ts := ignored.map (fun pid => (⟨pid, 0⟩ : Target))
                let _success ← env.bulkE ts
                pure (cacheSet acc.1 p.1 p.2, acc.2 ++ [(p.1, ts)])
            else
              if ignored = [] then pure (cacheSet acc.1 p.1 p.2, acc.2)
              else do
                let ts := ignored.map (fun pid => (⟨pid, 1⟩ : Target))
                let _success ← env.bulkE ts
                pure (cacheSet acc.1 p.1 p.2, acc.2 ++ [(p.1, ts)]))
    (store0, ([] : List (Nat × List Target)))

/-- The whole fallible tick including its `try`/`except`: on success the
final map is persisted by the one `set_cache_value` call after the loop;
on an exception the handler only logs, so the store keeps `store0`.
Returns the persisted cache and the trace of `set_cache_value` calls. -/
def manageTickE (env : EnvE) (store0 : Cache) : Cache × List Cache :=
  match runTickE env store0 with
  | Except.ok r => (r.1, [r.1])
  | Except.error _ => (store0, [])

/-! ## Concrete environments used by the witnesses -/

/-- The tick's loop body as a foldl step. -/
def tickStep (env : Env) (acc : Cache × List (Nat × List Target))
    (p : Nat × Bool) : Cache × List (Nat × List Target) :=
  let r := processBuilding env acc.1 p.1 p.2
  (r.1, acc.2 ++ r.2)

/-- Concrete tick environment: building 1 disarmed in cache, armed
live, with devices present and ignore set `{3, 7}`. -/
def envEdge : Env where
  liveStates := [(1, true)]
  cache := fun x => if x = 1 then some false else none
  proevents := fun _ => [⟨10, 0⟩, ⟨3, 1⟩, ⟨7, 1⟩]
  ignoredMap := [⟨3, 1, true⟩, ⟨7, 1, true⟩, ⟨5, 2, true⟩, ⟨9, 1, false⟩]
  bulkSuccess := fun _ => true

/-- Concrete tick environment where cache and live states agree. -/
def envIdem : Env where
  liveStates := [(1, true), (2, false)]
  cache := fun x => if x = 1 then some true else if x = 2 then some false else none
  proevents := fun _ => [⟨10, 0⟩]
  ignoredMap := [⟨3, 1, true⟩, ⟨7, 1, true⟩]
  bulkSuccess := fun _ => true

/-- Concrete tick environment with a never-observed building. -/
def envCold : Env where
  liveStates := [(4, true)]
  cache := fun _ => none
  proevents := fun _ => [⟨10, 0⟩]
  ignoredMap := [⟨3, 4, true⟩]
  bulkSuccess := fun _ => true

/-- Snapshot environment for the counterexample: building 1 has a
schedule but the live read returns no devices. -/
def snapEnvEmpty : SnapEnv where
  schedule := fun x => if x = 1 then some ⟨some "20:00"⟩ else none
  proevents := fun _ => []
  ignoredMap := []
  bulkSuccess := fun _ => true

/-- The everywhere-empty snapshot store. -/
def snaps0 : SnapStore := fun _ => none

/-- Snapshot environment with devices: building 1 has three devices, of
which device 3 is ignored-on-disarm. -/
def snapEnvW : SnapEnv where
  schedule := fun x => if x = 1 then some ⟨some "20:00"⟩ else none
  proevents := fun x => if x = 1 then [⟨1, 0⟩, ⟨2, 1⟩, ⟨3, 0⟩] else []
  ignoredMap := [⟨3, 1, true⟩]
  bulkSuccess := fun _ => true

/-- A concrete snapshot store holding snapshots for buildings 1 and 2. -/
def snapsW : SnapStore :=
  fun x => if x = 1 then some [⟨9, 0⟩] else if x = 2 then some [⟨8, 1⟩] else none

/-- Concrete alert environment: buildings 1 (disarmed) and 2 (armed),
both scheduled at the current time, building 3 scheduled away from it. -/
def alertEnvW : AlertEnv where
  currentTime := startTimeOf ⟨some "20:00"⟩
  liveStates := [(1, false), (2, true), (3, false)]
  schedule := fun x =>
    if x = 1 then some ⟨some "20:00"⟩
    else if x = 2 then some ⟨some "20:00"⟩
    else if x = 3 then some ⟨some "07:30"⟩
    else none

/-- Fallible tick environment: one building with a detected edge whose
bulk write raises. -/
def envBulkFail : EnvE where
  liveStatesE := Except.ok [(1, true)]
  proeventsE := fun _ => Except.ok [⟨10, 0⟩]
  ignoredMapE := Except.ok [⟨3, 1, true⟩]
  bulkE := fun _ => Except.error ()

/-- The persisted cache `envBulkFail` starts from. -/
def store0W : Cache := fun x => if x = 1 then some false else none

/-! ## Structural lemmas about the tick -/

/-- The writes issued while processing a building do not depend on the
accumulated `new_cached_states` map. -/
theorem processBuilding_snd_indep (env : Env) (nc nc' : Cache) (b : Nat)
    (a : Bool) :
    (processBuilding env nc b a).2 = (processBuilding env nc' b a).2 := by
  unfold processBuilding
  cases env.cache b
  · rfl
  · dsimp only
    split_ifs <;> rfl

/-- Processing a building only touches that building's cache key. -/
theorem processBuilding_fst_ne (env : Env) (nc : Cache) (b x : Nat)
    (a : Bool) (h : x ≠ b) :
    (processBuilding env nc b a).1 x = nc x := by
  unfold processBuilding
  cases env.cache b
  · simp [cacheSet, h]
  · dsimp only
    split_ifs <;> simp [cacheSet, h]

/-- After processing a building whose accumulated entry still equals the
originally cached entry, its cache key holds the live value. -/
theorem processBuilding_fst_self (env : Env) (nc : Cache) (b : Nat)
    (a : Bool) (h : nc b = env.cache b) :
    (processBuilding env nc b a).1 b = some a := by
  unfold processBuilding
  cases hc : env.cache b with
  | none => simp [cacheSet]
  | some prev =>
    dsimp only
    split_ifs with h1 <;> simp_all [cacheSet]

/-- Every write issued while processing building `b` is tagged `b`, and
at most one bulk write is issued per building per tick. -/
theorem processBuilding_snd_shape (env : Env) (nc : Cache) (b : Nat)
    (a : Bool) :
    (processBuilding env nc b a).2 = [] ∨
      ∃ ts, (processBuilding env nc b a).2 = [(b, ts)] := by
  unfold processBuilding
  cases env.cache b
  · exact Or.inl rfl
  · dsimp only
    split_ifs <;> simp

theorem manage_eq_foldl (env : Env) :
    manage_proevents_on_panel_state_change env =
      env.liveStates.foldl (tickStep env) (env.cache, []) := rfl

/-- The write trace of a fold over `l` is the already accumulated trace
followed by each building's own writes in order. -/
theorem tick_writes_aux (env : Env) (l : List (Nat × Bool)) (c : Cache)
    (w : List (Nat × List Target)) :
    (l.foldl (tickStep env) (c, w)).2 =
      w ++ l.flatMap (fun p => (processBuilding env env.cache p.1 p.2).2) := by
  induction l generalizing c w with
  | nil => simp
  | cons p l ih =>
    rw [List.foldl_cons, List.flatMap_cons]
    rw [show tickStep env (c, w) p =
      ((processBuilding env c p.1 p.2).1,
        w ++ (processBuilding env c p.1 p.2).2) from rfl]
    rw [ih, processBuilding_snd_indep env c env.cache, List.append_assoc]

/-- A fold over buildings none of which is `x` leaves `x`'s cache key
unchanged. -/
theorem tick_cache_not_mem (env : Env) (l : List (Nat × Bool)) (c : Cache)
    (w : List (Nat × List Target)) (x : Nat)
    (hx : x ∉ l.map Prod.fst) :
    (l.foldl (tickStep env) (c, w)).1 x = c x := by
  induction l generalizing c w with
  | nil => rfl
  | cons p l ih =>
    simp only [List.map_cons, List.mem_cons, not_or] at hx
    rw [List.foldl_cons]
    rw [show tickStep env (c, w) p =
      ((processBuilding env c p.1 p.2).1,
        w ++ (processBuilding env c p.1 p.2).2) from rfl]
    rw [ih _ _ hx.2, processBuilding_fst_ne env c p.1 x p.2 hx.1]

/-- After a full fold whose keys are distinct, the key of each observed
building holds its live value, provided its accumulated entry started
out agreeing with the originally cached map. -/
theorem tick_cache_mem (env : Env) (l : List (Nat × Bool)) (c : Cache)
    (w : List (Nat × List Target)) (b : Nat) (a : Bool)
    (hnd : (l.map Prod.fst).Nodup) (hmem : (b, a) ∈ l)
    (hc : c b = env.cache b) :
    (l.foldl (tickStep env) (c, w)).1 b = some a := by
  induction l generalizing c w with
  | nil => cases hmem
  | cons p l ih =>
    simp only [List.map_cons, List.nodup_cons] at hnd
    rw [List.foldl_cons]
    rw [show tickStep env (c, w) p =
      ((processBuilding env c p.1 p.2).1,
        w ++ (processBuilding env c p.1 p.2).2) from rfl]
    rcases List.mem_cons.mp hmem with heq | htl
    · have hb : p.1 = b := by rw [← heq]
      have hnotin : b ∉ l.map Prod.fst := hb ▸ hnd.1
      rw [tick_cache_not_mem env l _ _ b hnotin]
      have : (processBuilding env c p.1 p.2).1 b = some p.2 := by
        rw [hb]
        exact processBuilding_fst_self env c b p.2 (hb ▸ hc)
      rw [this, ← heq]
    · have hb : p.1 ≠ b := by
        intro hcontra
        exact hnd.1 (hcontra ▸ (List.mem_map_of_mem Prod.fst htl))
      refine ih _ _ hnd.2 htl ?_
      rw [processBuilding_fst_ne env c p.1 b p.2 (Ne.symm hb), hc]

/-- Tag form of `processBuilding_snd_shape`. -/
theorem processBuilding_tag (env : Env) (nc : Cache) (b : Nat) (a : Bool) :
    ∀ q ∈ (processBuilding env nc b a).2, q.1 = b := by
  intro q hq
  rcases processBuilding_snd_shape env nc b a with hsh | ⟨ts, hsh⟩
  · rw [hsh] at hq
    cases hq
  · rw [hsh] at hq
    rcases List.mem_singleton.mp hq with rfl
    rfl

/-- A building absent from the live read contributes no write entries
tagged with its id. -/
theorem filter_tag_nil (env : Env) (l : List (Nat × Bool)) (b : Nat)
    (hb : b ∉ l.map Prod.fst) :
    (l.flatMap fun p => (processBuilding env env.cache p.1 p.2).2).filter
      (fun w => w.1 = b) = [] := by
  rw [List.filter_eq_nil_iff]
  intro q hq
  obtain ⟨p, hp, hq2⟩ := List.mem_flatMap.mp hq
  have htag := processBuilding_tag env env.cache p.1 p.2 q hq2
  have : p.1 ∈ l.map Prod.fst := List.mem_map_of_mem Prod.fst hp
  simp only [htag, decide_eq_true_eq]
  intro hcontra
  exact hb (hcontra ▸ this)

/-- With distinct keys, the write-trace entries tagged `b` are exactly
the writes of `b`'s own loop iteration. -/
theorem writes_filter_aux (env : Env) (l : List (Nat × Bool)) (b : Nat)
    (a : Bool) (hnd : (l.map Prod.fst).Nodup) (hmem : (b, a) ∈ l) :
    (l.flatMap fun p => (processBuilding env env.cache p.1 p.2).2).filter
      (fun w => w.1 = b) = (processBuilding env env.cache b a).2 := by
  induction l with
  | nil => cases hmem
  | cons p l ih =>
    simp only [List.map_cons, List.nodup_cons] at hnd
    rw [List.flatMap_cons, List.filter_append]
    rcases List.mem_cons.mp hmem with heq | htl
    · obtain ⟨p1, p2⟩ := p
      injection heq with h1 h2
      subst h1
      subst h2
      rw [filter_tag_nil env l b hnd.1, List.filter_eq_self.mpr, List.append_nil]
      intro q hq
      simp [processBuilding_tag env env.cache b a q hq]
    · have hb : p.1 ≠ b := by
        intro hcontra
        exact hnd.1 (hcontra ▸ (List.mem_map_of_mem Prod.fst htl))
      rw [ih hnd.2 htl, List.filter_eq_nil_iff.mpr, List.nil_append]
      intro q hq
      simp [processBuilding_tag env env.cache p.1 p.2 q hq, hb]

/-- The `writesFor` of an observed building with distinct keys is exactly
that building's own iteration writes, untagged. -/
theorem writesFor_eq (env : Env) (b : Nat) (a : Bool)
    (hnd : (env.liveStates.map Prod.fst).Nodup)
    (hmem : (b, a) ∈ env.liveStates) :
    writesFor env b =
      ((processBuilding env env.cache b a).2).map (fun w => w.2) := by
  unfold writesFor
  rw [manage_eq_foldl, tick_writes_aux, List.nil_append,
    writes_filter_aux env env.liveStates b a hnd hmem]

/-- A building with no detected edge contributes no writes. -/
theorem processBuilding_noop (env : Env) (nc : Cache) (b : Nat) (a : Bool)
    (h : env.cache b = some a) :
    (processBuilding env nc b a).2 = [] := by
  unfold processBuilding
  rw [h]
  simp

/-- A never-observed building contributes no writes. -/
theorem processBuilding_cold (env : Env) (nc : Cache) (b : Nat) (a : Bool)
    (h : env.cache b = none) :
    (processBuilding env nc b a).2 = [] := by
  unfold processBuilding
  rw [h]

/-- On a detected edge with devices present and a non-empty ignore set,
the loop iteration issues exactly one bulk write: the ignore set mapped
to state 0 on arming and state 1 on disarming. -/
theorem processBuilding_edge (env : Env) (nc : Cache) (b : Nat)
    (a prev : Bool) (hprev : env.cache b = some prev) (hne : prev ≠ a)
    (hdev : env.proevents b ≠ []) (hig : ignoredIds env.ignoredMap b ≠ []) :
    (processBuilding env nc b a).2 =
      [(b, (ignoredIds env.ignoredMap b).map
        (fun pid => (⟨pid, if a then 0 else 1⟩ : Target)))] := by
  unfold processBuilding
  rw [hprev]
  dsimp only
  rw [if_neg hne, if_neg hdev]
  cases a <;> simp [hig]

/-! ## Claim theorems: the reconciliation tick -/

/-- C1: on a tick where building `b` shows an edge (cached state a
definite boolean differing from the live state), has at least one
device, and its ignore set (ids whose `IgnoreEntry` has this building
and `ignore_on_disarm` true) is `{3, 7}`: the tick issues exactly one
bulk write for `b`, setting exactly devices 3 and 7 — to Reactive
(state 0) on a transition to Armed, to NonReactive (state 1) on a
transition to Disarmed — and no other devices. -/
theorem tick_edge_bulk_write_exact (env : Env) (b : Nat) (a prev : Bool)
    (hnd : (env.liveStates.map Prod.fst).Nodup)
    (hmem : (b, a) ∈ env.liveStates)
    (hprev : env.cache b = some prev) (hne : prev ≠ a)
    (hdev : env.proevents b ≠ [])
    (hig : ∀ pid, pid ∈ ignoredIds env.ignoredMap b ↔ (pid = 3 ∨ pid = 7)) :
    ∃ ts, writesFor env b = [ts] ∧
      ∀ t, t ∈ ts ↔
        (t = (⟨3, if a then 0 else 1⟩ : Target) ∨
         t = (⟨7, if a then 0 else 1⟩ : Target)) := by
  have hig' : ignoredIds env.ignoredMap b ≠ [] :=
    List.ne_nil_of_mem ((hig 3).mpr (Or.inl rfl))
  rw [writesFor_eq env b a hnd hmem,
    processBuilding_edge env env.cache b a prev hprev hne hdev hig']
  refine ⟨(ignoredIds env.ignoredMap b).map
    (fun pid => (⟨pid, if a then 0 else 1⟩ : Target)), by simp, ?_⟩
  intro t
  simp only [List.mem_map]
  constructor
  · rintro ⟨pid, hpid, rfl⟩
    rcases (hig pid).mp hpid with rfl | rfl
    · exact Or.inl rfl
    · exact Or.inr rfl
  · rintro (rfl | rfl)
    · exact ⟨3, (hig 3).mpr (Or.inl rfl), rfl⟩
    · exact ⟨7, (hig 7).mpr (Or.inr rfl), rfl⟩

/-- Witness: `tick_edge_bulk_write_exact` applied to `envEdge`. -/
theorem tick_edge_bulk_write_exact_witness :
    ∃ ts, writesFor envEdge 1 = [ts] ∧
      ∀ t, t ∈ ts ↔
        (t = (⟨3, 0⟩ : Target) ∨ t = (⟨7, 0⟩ : Target)) := by
  have h := tick_edge_bulk_write_exact envEdge 1 true false (by decide)
    (by decide) (by decide) (by decide) (by decide)
    (by
      intro pid
      rw [show ignoredIds envEdge.ignoredMap 1 = [3, 7] from by decide]
      simp)
  simpa using h

/-- C2: a tick on which every building's cached state equals its live
state issues zero bulk writes. -/
theorem tick_idempotent (env : Env)
    (h : ∀ p ∈ env.liveStates, env.cache p.1 = some p.2) :
    (manage_proevents_on_panel_state_change env).2 = [] := by
  rw [manage_eq_foldl, tick_writes_aux, List.nil_append]
  refine List.flatMap_eq_nil_iff.mpr ?_
  intro p hp
  exact processBuilding_noop env env.cache p.1 p.2 (h p hp)

/-- Witness: `tick_idempotent` applied to `envIdem`. -/
theorem tick_idempotent_witness :
    (manage_proevents_on_panel_state_change envIdem).2 = [] :=
  tick_idempotent envIdem (by decide)

/-- C3: a building whose cached state is unknown (never observed) has
its live value stored in the cache by the tick and triggers no bulk
write.  The tick contains no alert call at all, so a cold start cannot
raise one. -/
theorem tick_cold_start (env : Env) (b : Nat) (a : Bool)
    (hnd : (env.liveStates.map Prod.fst).Nodup)
    (hmem : (b, a) ∈ env.liveStates)
    (hcache : env.cache b = none) :
    (manage_proevents_on_panel_state_change env).1 b = some a ∧
      writesFor env b = [] := by
  constructor
  · rw [manage_eq_foldl]
    exact tick_cache_mem env env.liveStates env.cache [] b a hnd hmem rfl
  · rw [writesFor_eq env b a hnd hmem,
      processBuilding_cold env env.cache b a hcache]
    rfl

/-- Witness: `tick_cold_start` applied to `envCold`. -/
theorem tick_cold_start_witness :
    (manage_proevents_on_panel_state_change envCold).1 4 = some true ∧
      writesFor envCold 4 = [] :=
  tick_cold_start envCold 4 true (by decide) (by decide) (by decide)

/-- C4: on a detected edge that issues a bulk write, the cache entry is
advanced to the new live value whatever the bulk write's success flag:
the conclusion holds for every success function `sf`, on both the armed
and the disarmed branch. -/
theorem tick_cache_advances_regardless_of_success (env : Env) (b : Nat)
    (a prev : Bool) (sf : List Target → Bool)
    (hnd : (env.liveStates.map Prod.fst).Nodup)
    (hmem : (b, a) ∈ env.liveStates)
    (hprev : env.cache b = some prev) (hne : prev ≠ a)
    (hdev : env.proevents b ≠ [])
    (hig : ignoredIds env.ignoredMap b ≠ []) :
    writesFor {env with bulkSuccess := sf} b ≠ [] ∧
      (manage_proevents_on_panel_state_change
        {env with bulkSuccess := sf}).1 b = some a := by
  constructor
  · rw [writesFor_eq {env with bulkSuccess := sf} b a hnd hmem,
      processBuilding_edge {env with bulkSuccess := sf} env.cache b a prev
        hprev hne hdev hig]
    simp
  · rw [manage_eq_foldl]
    exact tick_cache_mem {env with bulkSuccess := sf} env.liveStates
      env.cache [] b a hnd hmem rfl

/-- Witness: `tick_cache_advances_regardless_of_success` applied to
`envEdge` with a bulk write that reports failure. -/
theorem tick_cache_advances_witness :
    writesFor {envEdge with bulkSuccess := fun _ => false} 1 ≠ [] ∧
      (manage_proevents_on_panel_state_change
        {envEdge with bulkSuccess := fun _ => false}).1 1 = some true :=
  tick_cache_advances_regardless_of_success envEdge 1 true false
    (fun _ => false) (by decide) (by decide) (by decide) (by decide)
    (by decide) (by decide)

/-- C9: the first, shadowed definition of
`manage_proevents_on_panel_state_change` and the second, active one are
extensionally equivalent — on every input they produce the same final
cache and the same bulk-write trace, so the shadowed variant is dead
logic whose loss changes no behavior. -/
theorem shadowed_tick_equivalent :
    ∀ env : Env, manageProeventsV1 env =
      manage_proevents_on_panel_state_change env :=
  fun _ => rfl

/-! ## Claim theorems: snapshot manager and manual path -/

/-- Evaluating a building with a schedule, no existing snapshot and a
non-empty device read reduces to one explicit save-and-apply step. -/
theorem evaluate_building_state_fresh (env : SnapEnv) (snaps : SnapStore)
    (b : Nat) (sch : Schedule) (hsch : env.schedule b = some sch)
    (hsnap : snaps b = none) (hdev : env.proevents b ≠ []) :
    evaluate_building_state env snaps b =
      (snapSave snaps b ((env.proevents b).map
          (fun d => (⟨d.id, d.state⟩ : Target))),
       [b],
       [((env.proevents b).map (fun d => (⟨d.id, d.state⟩ : Target))).map
          (fun dev =>
            if dev.id ∈ ignoredIds env.ignoredMap b then (⟨dev.id, 1⟩ : Target)
            else (⟨dev.id, 0⟩ : Target))]) := by
  unfold evaluate_building_state take_snapshot_and_apply_schedule
  rw [hsch, hsnap, if_neg hdev]

/-- C5 (amended): for a building with a configured schedule, no
pre-existing snapshot and at least one device in the live read, the
first `evaluate_building_state` call performs one live read, saves the
captured device states as the snapshot and issues one bulk write; the
second call, finding the snapshot present, is a no-op: no snapshot
change, no live read, no bulk write. -/
theorem snapshot_exactly_once (env : SnapEnv) (snaps : SnapStore)
    (b : Nat) (sch : Schedule) (hsch : env.schedule b = some sch)
    (hsnap : snaps b = none) (hdev : env.proevents b ≠ []) :
    (evaluate_building_state env snaps b).1 b =
      some ((env.proevents b).map (fun d => (⟨d.id, d.state⟩ : Target))) ∧
    (evaluate_building_state env snaps b).2.1 = [b] ∧
    (evaluate_building_state env snaps b).2.2.length = 1 ∧
    evaluate_building_state env (evaluate_building_state env snaps b).1 b =
      ((evaluate_building_state env snaps b).1, [], []) := by
  rw [evaluate_building_state_fresh env snaps b sch hsch hsnap hdev]
  refine ⟨by simp [snapSave], rfl, rfl, ?_⟩
  unfold evaluate_building_state
  dsimp only
  rw [hsch]
  simp [snapSave]

/-- Counterexample to C5 as stated over all buildings with a schedule:
(i) building 1 of `snapEnvEmpty` has a configured schedule, yet the
first `evaluate_building_state` call saves no snapshot (the live read
returns no devices) and the second call performs the live read again,
so two calls perform two live reads, not one; (ii) with a pre-existing
snapshot (`snapsW`), the first call performs no live read at all, so
the live-read-and-apply does not happen exactly once there either. -/
theorem snapshot_exactly_once_counterexample :
    (snapEnvEmpty.schedule 1 = some ⟨some "20:00"⟩ ∧
     (evaluate_building_state snapEnvEmpty snaps0 1).1 1 = none ∧
     (evaluate_building_state snapEnvEmpty snaps0 1).2.1 = [1] ∧
     (evaluate_building_state snapEnvEmpty
       (evaluate_building_state snapEnvEmpty snaps0 1).1 1).2.1 = [1]) ∧
    (snapEnvW.schedule 1 = some ⟨some "20:00"⟩ ∧
     (evaluate_building_state snapEnvW snapsW 1).2.1 = []) := by
  exact ⟨⟨rfl, rfl, rfl, rfl⟩, ⟨rfl, rfl⟩⟩

/-- Witness: `snapshot_exactly_once` applied to `snapEnvW`. -/
theorem snapshot_exactly_once_witness :
    (evaluate_building_state snapEnvW snaps0 1).1 1 =
      some [⟨1, 0⟩, ⟨2, 1⟩, ⟨3, 0⟩] ∧
    (evaluate_building_state snapEnvW snaps0 1).2.1 = [1] ∧
    (evaluate_building_state snapEnvW snaps0 1).2.2.length = 1 ∧
    evaluate_building_state snapEnvW
        (evaluate_building_state snapEnvW snaps0 1).1 1 =
      ((evaluate_building_state snapEnvW snaps0 1).1, [], []) := by
  have h := snapshot_exactly_once snapEnvW snaps0 1 ⟨some "20:00"⟩ rfl rfl
    (by decide)
  simpa using h

/-- C6: `revert_snapshot` issues one bulk write holding exactly the
captured pairs as given — not recomputed from the ignore set or any
live state, neither of which it reads — then clears the building's
snapshot and leaves every other building's snapshot unchanged. -/
theorem revert_snapshot_fidelity (snaps : SnapStore) (b : Nat)
    (data : List Target) :
    (revert_snapshot snaps b data).2 = [data] ∧
    (revert_snapshot snaps b data).1 b = none ∧
    ∀ x, x ≠ b → (revert_snapshot snaps b data).1 x = snaps x := by
  refine ⟨rfl, by simp [revert_snapshot, snapClear], ?_⟩
  intro x hx
  simp [revert_snapshot, snapClear, hx]

/-- Witness: `revert_snapshot_fidelity` applied to building 1 with the
spec's example pairs `[(1, Reactive), (2, NonReactive)]`. -/
theorem revert_snapshot_fidelity_witness :
    (revert_snapshot snapsW 1 [⟨1, 0⟩, ⟨2, 1⟩]).2 = [[⟨1, 0⟩, ⟨2, 1⟩]] ∧
    (revert_snapshot snapsW 1 [⟨1, 0⟩, ⟨2, 1⟩]).1 1 = none ∧
    (revert_snapshot snapsW 1 [⟨1, 0⟩, ⟨2, 1⟩]).1 2 = snapsW 2 := by
  have h := revert_snapshot_fidelity snapsW 1 [⟨1, 0⟩, ⟨2, 1⟩]
  exact ⟨h.1, h.2.1, h.2.2 2 (by decide)⟩

/-- C7: `reevaluate_building_state` under a truthy global `panel_armed`
flag returns with the snapshot store untouched, no live read and no
device write; with the flag not armed it delegates exactly to the
snapshot-gated `evaluate_building_state`. -/
theorem reevaluate_manual_rejection (env : SnapEnv) (pa : Option Bool)
    (snaps : SnapStore) (b : Nat) :
    (truthy pa = true →
      reevaluate_building_state env pa snaps b = (snaps, [], [])) ∧
    (truthy pa = false →
      reevaluate_building_state env pa snaps b =
        evaluate_building_state env snaps b) := by
  constructor <;> intro h <;> simp [reevaluate_building_state, h]

/-- Witness: `reevaluate_manual_rejection` with the global flag armed. -/
theorem reevaluate_manual_rejection_witness :
    reevaluate_building_state snapEnvW (some true) snapsW 1 =
      (snapsW, [], []) :=
  (reevaluate_manual_rejection snapEnvW (some true) snapsW 1).1 rfl

/-! ## Claim theorems: scheduled alert checker -/

/-- Alert-trace form of the fold driving
`check_and_manage_scheduled_states`. -/
theorem alerts_aux (env : AlertEnv) (l : List (Nat × Bool)) (w : List Nat) :
    (l.foldl (fun alerts p => alerts ++ checkBuilding env p.1 p.2) w) =
      w ++ l.flatMap (fun p => checkBuilding env p.1 p.2) := by
  induction l generalizing w with
  | nil => simp
  | cons p l ih =>
    rw [List.foldl_cons, List.flatMap_cons, ih, List.append_assoc]

/-- One loop iteration of the alert checker sends either nothing or a
single alert for its own building. -/
theorem checkBuilding_shape (env : AlertEnv) (b : Nat) (a : Bool) :
    checkBuilding env b a = [] ∨ checkBuilding env b a = [b] := by
  unfold checkBuilding
  cases env.schedule b
  · exact Or.inl rfl
  · dsimp only
    split_ifs <;> simp

/-- With distinct keys, the number of alerts a check sends for an
observed building is the number its own iteration sends. -/
theorem alert_count_aux (env : AlertEnv) (l : List (Nat × Bool)) (b : Nat)
    (a : Bool) (hnd : (l.map Prod.fst).Nodup) (hmem : (b, a) ∈ l) :
    List.count b (l.flatMap fun p => checkBuilding env p.1 p.2) =
      List.count b (checkBuilding env b a) := by
  induction l with
  | nil => cases hmem
  | cons p l ih =>
    simp only [List.map_cons, List.nodup_cons] at hnd
    rw [List.flatMap_cons, List.count_append]
    rcases List.mem_cons.mp hmem with heq | htl
    · obtain ⟨p1, p2⟩ := p
      injection heq with h1 h2
      subst h1
      subst h2
      have htail :
          List.count b (l.flatMap fun p => checkBuilding env p.1 p.2) = 0 := by
        rw [List.count_eq_zero]
        intro hb
        obtain ⟨q, hq, hbq⟩ := List.mem_flatMap.mp hb
        rcases checkBuilding_shape env q.1 q.2 with hsh | hsh
        · rw [hsh] at hbq
          cases hbq
        · rw [hsh] at hbq
          have hq1 := List.mem_singleton.mp hbq
          exact hnd.1 (hq1 ▸ List.mem_map.mpr ⟨q, hq, rfl⟩)
      rw [htail, Nat.add_zero]
    · have hb : p.1 ≠ b := by
        intro hcontra
        exact hnd.1 (hcontra ▸ (List.mem_map_of_mem Prod.fst htl))
      have hhead : List.count b (checkBuilding env p.1 p.2) = 0 := by
        rw [List.count_eq_zero]
        intro hcb
        rcases checkBuilding_shape env p.1 p.2 with hsh | hsh
        · rw [hsh] at hcb
          cases hcb
        · rw [hsh] at hcb
          exact hb (List.mem_singleton.mp hcb).symm
      rw [hhead, ih hnd.2 htl, Nat.zero_add]

/-- Alert count for one observed building of the live read. -/
theorem alert_count (env : AlertEnv) (b : Nat) (a : Bool)
    (hnd : (env.liveStates.map Prod.fst).Nodup)
    (hmem : (b, a) ∈ env.liveStates) :
    List.count b (check_and_manage_scheduled_states env) =
      List.count b (checkBuilding env b a) := by
  unfold check_and_manage_scheduled_states
  rw [alerts_aux, List.nil_append]
  exact alert_count_aux env env.liveStates b a hnd hmem

/-- C8: for a building with a schedule row, when the current time
string (already minute-truncated, `"%H:%M"`) equals the configured
start time truncated to five characters, a disarmed live state raises
exactly one alert for that building and an armed live state raises
none; when the times differ, no alert is raised. -/
theorem scheduled_alert_gating (env : AlertEnv) (b : Nat) (a : Bool)
    (sch : Schedule)
    (hnd : (env.liveStates.map Prod.fst).Nodup)
    (hmem : (b, a) ∈ env.liveStates)
    (hsch : env.schedule b = some sch) :
    (env.currentTime = startTimeOf sch →
      (a = true → List.count b (check_and_manage_scheduled_states env) = 0) ∧
      (a = false → List.count b (check_and_manage_scheduled_states env) = 1)) ∧
    (env.currentTime ≠ startTimeOf sch →
      List.count b (check_and_manage_scheduled_states env) = 0) := by
  rw [alert_count env b a hnd hmem]
  unfold checkBuilding
  rw [hsch]
  dsimp only
  constructor
  · intro heq
    rw [if_neg (by simpa using heq)]
    constructor <;> intro ha <;> subst ha <;> simp
  · intro hne
    rw [if_pos hne]
    simp

/-- Witness: `scheduled_alert_gating` applied to the disarmed building
1 of `alertEnvW` at its configured time. -/
theorem scheduled_alert_gating_witness :
    List.count 1 (check_and_manage_scheduled_states alertEnvW) = 1 :=
  ((scheduled_alert_gating alertEnvW 1 false ⟨some "20:00"⟩ (by decide)
    (by decide) rfl).1 rfl).2 rfl

/-! ## Claim theorems: the fallible tick -/

/-- C10: the tick persists the panel-state cache through at most one
`set_cache_value` call, placed after the whole loop; whenever any
per-building step (live read, device read, ignore-list load, bulk
write) raises, that call never runs and the persisted cache is left
unchanged for every building. -/
theorem tick_cache_all_or_nothing (env : EnvE) (store0 : Cache) :
    (manageTickE env store0).2.length ≤ 1 ∧
    ∀ e, runTickE env store0 = Except.error e →
      (manageTickE env store0).2 = [] ∧
      ∀ b, (manageTickE env store0).1 b = store0 b := by
  constructor
  · unfold manageTickE
    cases runTickE env store0 <;> simp
  · intro e he
    unfold manageTickE
    rw [he]
    exact ⟨rfl, fun b => rfl⟩

/-- Witness: `tick_cache_all_or_nothing` on a tick whose bulk write
raises mid-loop: no persist call happens and building 1 keeps its old
cached value. -/
theorem tick_cache_all_or_nothing_witness :
    (manageTickE envBulkFail store0W).2 = [] ∧
      (manageTickE envBulkFail store0W).1 1 = store0W 1 := by
  have h := (tick_cache_all_or_nothing envBulkFail store0W).2 () rfl
  exact ⟨h.1, h.2 1⟩

end Proevent
